import Mathlib

/-!
# Quiz Session Engine of `src/pages/TestingPage.tsx`

Shallow embedding of the test-taking state machine of the React page
`TestingPage.tsx` (the only executable quiz logic in the repository),
together with the record types of `src/types/index.ts` that the spec's
data model refers to.

React `useState` component state becomes an explicit `SessionState`
record; each handler becomes a function `SessionState → SessionState`.
JS numbers used here are all small non-negative integers, embedded as
`Nat`; the one floating-point comparison (`score / length >= 0.7` on
line 222) is embedded over `ℚ`, exact for every reachable value since
scores and question counts are tiny integers.  The JS expression
`mockTest.questions.length - 1` is embedded with `Nat` subtraction: for
`length = 0` JS gives `-1` and `0 < -1` is false, while `Nat` gives `0`
and `0 < 0` is false, so the branch taken agrees for every length.
-/

/-- A quiz question as in the `mockTest` literal of `TestingPage.tsx`
(fields `id`, `text`, `options`, `correctOption`); the `Question`
interface of `src/types/index.ts` has the same shape (there the correct
index is spelled `correct_option` and an optional `explanation` is
omitted here as no code reads it). -/
structure Question where
  id : String
  text : String
  options : List String
  correctOption : Nat
deriving Repr, DecidableEq

/-- The shape of the `mockTest` literal of `TestingPage.tsx`: an id, a
title and an ordered question list. -/
structure Test where
  id : String
  title : String
  questions : List Question
deriving Repr, DecidableEq

/-- The `Test` interface of `src/types/index.ts` (lines 38-48): the
stored test record, carrying in particular the `passing_score`
percentage.  The `Date` fields `created_at` are omitted (no quiz code
reads them). -/
structure TestRecord where
  id : String
  title : String
  description : String
  category_id : Option String
  questions : List Question
  passing_score : Nat
  is_active : Bool
  created_by : String
deriving Repr, DecidableEq

/-- The hard-coded five-question test of `TestingPage.tsx` (lines 39-74). -/
def mockTest : Test :=
  { id := "1"
  , title := "Основы знаний о фруктах"
  , questions :=
      [ { id := "q1"
        , text := "Какой фрукт богат витамином C?"
        , options := ["Банан", "Апельсин", "Груша", "Авокадо"]
        , correctOption := 1 }
      , { id := "q2"
        , text := "Какой из этих фруктов не относится к цитрусовым?"
        , options := ["Лимон", "Мандарин", "Яблоко", "Грейпфрут"]
        , correctOption := 2 }
      , { id := "q3"
        , text := "Какой фрукт содержит наибольшее количество калия?"
        , options := ["Банан", "Яблоко", "Киви", "Апельсин"]
        , correctOption := 0 }
      , { id := "q4"
        , text := "Какой фрукт традиционно считается символом здоровья?"
        , options := ["Груша", "Персик", "Яблоко", "Виноград"]
        , correctOption := 2 }
      , { id := "q5"
        , text := "Какой фрукт является самым популярным в мире по объему потребления?"
        , options := ["Яблоко", "Банан", "Апельсин", "Манго"]
        , correctOption := 1 } ] }

/-- The component state of `TestingPage` (lines 77-81): the five
`useState` hooks.  `answers` is the fixed-length nullable slot array
`Array(mockTest.questions.length).fill(null)`. -/
structure SessionState where
  selectedTest : Option String
  currentQuestion : Nat
  answers : List (Option Nat)
  selectedOption : Option Nat
  testCompleted : Bool
deriving Repr, DecidableEq

/-- The state reset performed by `handleTestSelect` (lines 83-89),
generalised over the test whose question count sizes the answer array;
in the page that test is always the component constant `mockTest`. -/
def startSession (test : Test) (testId : String) : SessionState :=
  { selectedTest := some testId
  , currentQuestion := 0
  , answers := List.replicate test.questions.length none
  , selectedOption := none
  , testCompleted := false }

/-- `handleTestSelect` (lines 83-89): resets the session state for the
chosen test id, always sizing and later scoring against `mockTest`. -/
def handleTestSelect (testId : String) : SessionState :=
  startSession mockTest testId

/-- `handleOptionSelect` (lines 91-93): stores the clicked option index,
with no range check. -/
def handleOptionSelect (s : SessionState) (optionIndex : Nat) : SessionState :=
  { s with selectedOption := some optionIndex }

/-- `handleNextQuestion` (lines 95-108): if an option is selected,
record it into the answer slot of the current question; then either
advance to the next question (clearing the selection) or, on the last
question, mark the test completed (leaving both the index and the
selection as they are). -/
def handleNextQuestion (test : Test) (s : SessionState) : SessionState :=
  match s.selectedOption with
  | none => s
  | some sel =>
    let newAnswers := s.answers.set s.currentQuestion (some sel)
    if s.currentQuestion < test.questions.length - 1 then
      { s with answers := newAnswers
             , currentQuestion := s.currentQuestion + 1
             , selectedOption := none }
    else
      { s with answers := newAnswers, testCompleted := true }

/-- One user interaction for one question: select an option, then press
the next/finish button (`handleOptionSelect` followed by
`handleNextQuestion`; the button is enabled exactly when an option is
selected). -/
def submitAnswer (test : Test) (s : SessionState) (opt : Nat) : SessionState :=
  handleNextQuestion test (handleOptionSelect s opt)

/-- A whole interaction sequence: submit the given option indices in
order, starting from `s`. -/
def runSession (test : Test) (s : SessionState) (opts : List Nat) : SessionState :=
  opts.foldl (submitAnswer test) s

/-- The comparison `answer === mockTest.questions[index].correctOption`
of line 112: a slot scores iff it holds a non-null answer equal to the
correct option of the question at the same index (JS `===` between
`null` and a number is false; an index past the question list cannot
occur in the page, where the answer array and the question list always
have the same length, and is embedded as a non-match). -/
def answerHit (qOpt : Option Question) (a : Option Nat) : Bool :=
  match a, qOpt with
  | some sel, some q => sel = q.correctOption
  | _, _ => false

/-- The accumulator loop of `calculateScore` (lines 110-117):
`answers.reduce((score, answer, index) => ...)`, threading the element
index and the running score. -/
def scoreAux (qs : List Question) : List (Option Nat) → Nat → Nat → Nat
  | [], _, score => score
  | a :: rest, idx, score =>
      scoreAux qs rest (idx + 1) (if answerHit qs[idx]? a then score + 1 else score)

/-- `calculateScore` (lines 110-117), generalised over the question
list it closes over (`mockTest.questions` in the page). -/
def calculateScore (qs : List Question) (answers : List (Option Nat)) : Nat :=
  scoreAux qs answers 0 0

/-- The result values the completed-test view renders (lines 218-225):
the score and the question count (line 219), the percentage they
determine, and the pass/fail boolean of line 222, which compares the
score fraction against the hard-coded threshold `0.7`. -/
structure TestResult where
  score : Nat
  maxScore : Nat
  percentage : ℚ
  passed : Bool
deriving Repr, DecidableEq

/-- The result computation of the completed-test view, assembled from
`calculateScore()` and `mockTest.questions.length` exactly as lines
218-225 use them, generalised over the question list. -/
def computeResult (qs : List Question) (answers : List (Option Nat)) : TestResult :=
  { score := calculateScore qs answers
  , maxScore := qs.length
  , percentage :=
      100 * ((calculateScore qs answers : ℚ) / (qs.length : ℚ))
  , passed :=
      decide ((7 : ℚ) / 10 ≤ (calculateScore qs answers : ℚ) / (qs.length : ℚ)) }

/-- Result computation as an operation on a session: `calculateScore`
only reads the component state and performs no `setState`, so the
session comes back unchanged. -/
def computeResultOp (qs : List Question) (s : SessionState) : TestResult × SessionState :=
  (computeResult qs s.answers, s)

/-- `handleRestartTest` (lines 119-124): same reset as starting, keeping
the selected test id. -/
def handleRestartTest (s : SessionState) : SessionState :=
  { s with currentQuestion := 0
         , answers := List.replicate mockTest.questions.length none
         , selectedOption := none
         , testCompleted := false }

/-- Following the spec's words: the number of recorded (non-null)
answers in the session's answer array. -/
def recordedAnswerCount (answers : List (Option Nat)) : Nat :=
  (answers.filter (fun a => a.isSome)).length

/-- Following the spec's words: the count of recorded answers whose
selected option equals the paired question's correct option. -/
def countCorrectAnswers (qs : List Question) (answers : List (Option Nat)) : Nat :=
  ((answers.zip qs).filter (fun p => p.1 = some p.2.correctOption)).length

/-- Following the spec's words for the claimed pass rule: the outcome is
`percentage >= test.passing_score`, the threshold supplied by the stored
test record itself. -/
def specPassedRule (t : TestRecord) (score : Nat) : Bool :=
  decide ((t.passing_score : ℚ) ≤ 100 * (score : ℚ) / (t.questions.length : ℚ))

/-- A stored test record over the same five questions as `mockTest` but
with a passing score of 90, as the `Test` interface of
`src/types/index.ts` allows (the page's result view never reads it). -/
def testRecord90 : TestRecord :=
  { id := "1"
  , title := "Основы знаний о фруктах"
  , description := "Базовый тест на знание ассортимента фруктов"
  , category_id := none
  , questions := mockTest.questions
  , passing_score := 90
  , is_active := true
  , created_by := "admin" }

/-- The question list of `mockTest` after a Content-Store mutation of
the first question's correct option (from 1 to 0), everything else
unchanged. -/
def mutatedQuestions : List Question :=
  match mockTest.questions with
  | [] => []
  | q :: rest => { q with correctOption := 0 } :: rest

/-- The question list of `mockTest` after a Content-Store mutation that
rewrites the first question's prompt text but keeps every correct
option. -/
def textMutatedQuestions : List Question :=
  match mockTest.questions with
  | [] => []
  | q :: rest => { q with text := "Какой фрукт самый богатый витамином C?" } :: rest

/-- A test with zero questions, which the Content-Store types allow. -/
def emptyTest : Test :=
  { id := "empty", title := "Пустой тест", questions := [] }

/-!
## Helper lemmas about the scoring loop
-/

/-- The hit test only looks at the correct-option index of the question. -/
lemma answerHit_congr (q1 q2 : Option Question) (a : Option Nat)
    (h : q1.map Question.correctOption = q2.map Question.correctOption) :
    answerHit q1 a = answerHit q2 a := by
  cases q1 <;> cases q2 <;> cases a <;> simp_all [answerHit]

lemma answerHit_some (q : Question) (a : Option Nat) :
    answerHit (some q) a = decide (a = some q.correctOption) := by
  cases a <;> simp [answerHit]

/-- The indexed `reduce` of `calculateScore`, started at index `i` with
accumulator `acc`, adds to `acc` the number of zip-matches of the
answers against the questions from index `i` on. -/
lemma scoreAux_eq (ans : List (Option Nat)) :
    ∀ (qs tail : List Question) (i acc : Nat),
      (∀ j, tail[j]? = qs[i + j]?) →
      scoreAux qs ans i acc = acc + countCorrectAnswers tail ans := by
  induction ans with
  | nil =>
    intro qs tail i acc _
    simp [scoreAux, countCorrectAnswers]
  | cons a rest ih =>
    intro qs tail i acc h
    cases tail with
    | nil =>
      have h0 : qs[i]? = none := by
        have h1 := h 0
        simpa using h1.symm
      have hrest : ∀ j, ([] : List Question)[j]? = qs[(i + 1) + j]? := by
        intro j
        have h1 := h (1 + j)
        rw [show (i + 1) + j = i + (1 + j) from by omega, ← h1]
        simp
      simp only [scoreAux, h0]
      rw [ih qs [] (i + 1) _ hrest]
      simp [answerHit, countCorrectAnswers]
    | cons q ts =>
      have h0 : qs[i]? = some q := by
        have h1 := h 0
        simpa using h1.symm
      have hrest : ∀ j, ts[j]? = qs[(i + 1) + j]? := by
        intro j
        have h1 := h (j + 1)
        rw [show (i + 1) + j = i + (j + 1) from by omega, ← h1]
        simp
      simp only [scoreAux, h0, answerHit_some]
      rw [ih qs ts (i + 1) _ hrest]
      simp only [countCorrectAnswers, List.zip_cons_cons, List.filter_cons]
      by_cases hm : a = some q.correctOption
      · simp [hm, Nat.add_comm, Nat.add_assoc, Nat.add_left_comm]
      · simp [hm]

/-- `calculateScore` computes exactly the spec's count of answers whose
selected option equals the paired question's correct option. -/
lemma calculateScore_eq_count (qs : List Question) (ans : List (Option Nat)) :
    calculateScore qs ans = countCorrectAnswers qs ans := by
  have h := scoreAux_eq ans qs qs 0 0 (by intro j; simp)
  simpa [calculateScore] using h

/-- `calculateScore` depends only on the sequence of correct-option
indices present in the question list at the moment it runs. -/
lemma scoreAux_congr (ans : List (Option Nat)) :
    ∀ (qs qs2 : List Question),
      qs.map Question.correctOption = qs2.map Question.correctOption →
      ∀ (i acc : Nat), scoreAux qs ans i acc = scoreAux qs2 ans i acc := by
  induction ans with
  | nil => intro qs qs2 _ i acc; rfl
  | cons a rest ih =>
    intro qs qs2 h i acc
    have hg : qs[i]?.map Question.correctOption = qs2[i]?.map Question.correctOption := by
      rw [← List.getElem?_map, ← List.getElem?_map, h]
    simp only [scoreAux, answerHit_congr qs[i]? qs2[i]? a hg]
    exact ih qs qs2 h (i + 1) _

/-!
## Helper lemmas about the answer slot array
-/

/-- Writing into the first free slot of a partially filled answer array. -/
lemma set_first_free_slot (front : List Nat) (m : Nat) (o : Nat) (hm : 1 ≤ m) :
    (front.map some ++ List.replicate m (none : Option Nat)).set front.length (some o)
      = (front ++ [o]).map some ++ List.replicate (m - 1) (none : Option Nat) := by
  induction front with
  | nil =>
    cases m with
    | zero => omega
    | succ k => simp [List.replicate_succ]
  | cons x xs ih =>
    simp [List.replicate_succ, ih]

/-- The recorded-answer count of a partially filled answer array. -/
lemma recordedAnswerCount_filled (front : List Nat) (m : Nat) :
    recordedAnswerCount (front.map some ++ List.replicate m (none : Option Nat))
      = front.length := by
  induction front with
  | nil =>
    simp only [recordedAnswerCount, List.map_nil, List.nil_append, List.length_nil]
    induction m with
    | zero => rfl
    | succ k ihm => simp [List.replicate_succ, List.filter_cons, ihm]
  | cons x xs ih =>
    simpa [recordedAnswerCount, List.filter_cons] using ih

/-!
## Step lemmas for the session state machine
-/

/-- `submitAnswer` on a non-final question: the selected option is
recorded into the current slot and the index advances. -/
lemma submitAnswer_advance (test : Test) (tid : Option String) (cq : Nat)
    (ans : List (Option Nat)) (sel : Option Nat) (comp : Bool) (o : Nat)
    (h : cq < test.questions.length - 1) :
    submitAnswer test (SessionState.mk tid cq ans sel comp) o
      = SessionState.mk tid (cq + 1) (ans.set cq (some o)) none comp := by
  simp [submitAnswer, handleOptionSelect, handleNextQuestion, h]

/-- `submitAnswer` on the last question: the selected option is recorded
and the completion flag is set, while the index stays where it is. -/
lemma submitAnswer_finish (test : Test) (tid : Option String) (cq : Nat)
    (ans : List (Option Nat)) (sel : Option Nat) (comp : Bool) (o : Nat)
    (h : ¬ cq < test.questions.length - 1) :
    submitAnswer test (SessionState.mk tid cq ans sel comp) o
      = SessionState.mk tid cq (ans.set cq (some o)) (some o) true := by
  simp [submitAnswer, handleOptionSelect, handleNextQuestion, h]

/-- Main trace lemma: running a list of submissions from a session whose
answer array holds the already-given options `front` followed by empty
slots.  Either the submissions do not reach the question count and the
session stays in progress with the index equal to the number of answers
given, or they reach it exactly and the session completes with the index
stuck at the last question. -/
lemma run_mid (test : Test) :
    ∀ (opts front : List Nat) (st : SessionState),
      st.answers
          = front.map some
            ++ List.replicate (test.questions.length - front.length) (none : Option Nat) →
      st.currentQuestion = front.length →
      st.testCompleted = false →
      front.length + opts.length ≤ test.questions.length →
      front.length < test.questions.length →
      (runSession test st opts).answers
          = (front ++ opts).map some
            ++ List.replicate (test.questions.length - (front.length + opts.length))
                (none : Option Nat)
      ∧ (front.length + opts.length < test.questions.length →
          (runSession test st opts).testCompleted = false
          ∧ (runSession test st opts).currentQuestion = front.length + opts.length)
      ∧ (front.length + opts.length = test.questions.length →
          (runSession test st opts).testCompleted = true
          ∧ (runSession test st opts).currentQuestion = test.questions.length - 1) := by
  intro opts
  induction opts with
  | nil =>
    intro front st ha hc hk _ hfl
    refine ⟨by simpa using ha, fun _ => ⟨hk, by simpa using hc⟩,
      fun h => absurd h (by simp only [List.length_nil]; omega)⟩
  | cons o rest ih =>
    intro front st ha hc hk hlen hfl
    obtain ⟨stid, scq, sans, ssel, scomp⟩ := st
    simp only at ha hc hk
    subst hc hk
    have hrun : runSession test (SessionState.mk stid front.length sans ssel false) (o :: rest)
        = runSession test
            (submitAnswer test (SessionState.mk stid front.length sans ssel false) o) rest := rfl
    have hset : sans.set front.length (some o)
        = (front ++ [o]).map some
          ++ List.replicate (test.questions.length - front.length - 1) (none : Option Nat) := by
      rw [ha]
      exact set_first_free_slot front _ o (by omega)
    simp only [List.length_cons] at hlen
    by_cases h1 : front.length < test.questions.length - 1
    · rw [hrun, submitAnswer_advance test stid front.length sans ssel false o h1]
      have hfo : (front ++ [o]).length = front.length + 1 := by simp
      have ha2 : (SessionState.mk stid (front.length + 1)
            (sans.set front.length (some o)) none false).answers
          = (front ++ [o]).map some
            ++ List.replicate (test.questions.length - (front ++ [o]).length)
                (none : Option Nat) := by
        show sans.set front.length (some o) = _
        rw [hset, hfo, Nat.sub_sub]
      have hc2 : (SessionState.mk stid (front.length + 1)
            (sans.set front.length (some o)) none false).currentQuestion
          = (front ++ [o]).length := by
        rw [hfo]
      have hlen2 : (front ++ [o]).length + rest.length ≤ test.questions.length := by
        rw [hfo]; omega
      have hfl2 : (front ++ [o]).length < test.questions.length := by
        rw [hfo]; omega
      have key := ih (front ++ [o]) _ ha2 hc2 rfl hlen2 hfl2
      have e1 : (front ++ [o]) ++ rest = front ++ (o :: rest) := by simp
      have e2 : (front ++ [o]).length + rest.length = front.length + (o :: rest).length := by
        simp only [hfo, List.length_cons]; omega
      rw [e1, e2] at key
      exact key
    · have hL1 : 1 ≤ test.questions.length := by omega
      have hfin : front.length = test.questions.length - 1 := by omega
      have hrest : rest = [] := List.length_eq_zero.mp (by omega)
      subst hrest
      rw [hrun, submitAnswer_finish test stid front.length sans ssel false o h1]
      refine ⟨?_, ?_, ?_⟩
      · show (sans.set front.length (some o)) = _
        rw [hset]
        congr 1
      · intro hlt
        simp only [List.length_cons, List.length_nil] at hlt
        omega
      · intro _
        exact ⟨rfl, hfin⟩

/-- Running a full interaction sequence from a fresh session. -/
lemma run_fresh (test : Test) (tid : String) (opts : List Nat)
    (hL : 1 ≤ test.questions.length) (hlen : opts.length ≤ test.questions.length) :
    (runSession test (startSession test tid) opts).answers
        = opts.map some
          ++ List.replicate (test.questions.length - opts.length) (none : Option Nat)
    ∧ (opts.length < test.questions.length →
        (runSession test (startSession test tid) opts).testCompleted = false
        ∧ (runSession test (startSession test tid) opts).currentQuestion = opts.length)
    ∧ (opts.length = test.questions.length →
        (runSession test (startSession test tid) opts).testCompleted = true
        ∧ (runSession test (startSession test tid) opts).currentQuestion
            = test.questions.length - 1) := by
  have key := run_mid test opts [] (startSession test tid)
      (by simp [startSession]) rfl rfl
      (by simp only [List.length_nil]; omega)
      (by simp only [List.length_nil]; omega)
  simpa using key

/-- Neither handler reads or writes the stored test id, so the engine
state evolves identically whatever id was selected. -/
lemma submitAnswer_selectedTest (test : Test) (s : SessionState) (o : Nat)
    (t : Option String) :
    submitAnswer test { s with selectedTest := t } o
      = { submitAnswer test s o with selectedTest := t } := by
  obtain ⟨stid, scq, sans, ssel, scomp⟩ := s
  show submitAnswer test (SessionState.mk t scq sans ssel scomp) o = _
  by_cases h : scq < test.questions.length - 1
  · rw [submitAnswer_advance test t scq sans ssel scomp o h,
      submitAnswer_advance test stid scq sans ssel scomp o h]
  · rw [submitAnswer_finish test t scq sans ssel scomp o h,
      submitAnswer_finish test stid scq sans ssel scomp o h]

lemma runSession_selectedTest (test : Test) :
    ∀ (opts : List Nat) (s : SessionState) (t : Option String),
      runSession test { s with selectedTest := t } opts
        = { runSession test s opts with selectedTest := t } := by
  intro opts
  induction opts with
  | nil => intro s t; rfl
  | cons o rest ih =>
    intro s t
    show runSession test (submitAnswer test { s with selectedTest := t } o) rest = _
    rw [submitAnswer_selectedTest, ih]
    rfl

/-- The rendered pass/fail boolean is exactly a comparison of the
percentage against the fixed threshold 70, with ties passing. -/
lemma passed_eq_percentage_threshold (qs : List Question) (ans : List (Option Nat)) :
    (computeResult qs ans).passed
      = decide ((70 : ℚ) ≤ (computeResult qs ans).percentage) := by
  simp only [computeResult]
  rw [decide_eq_decide]
  constructor
  · intro hx
    linarith
  · intro hx
    linarith

/-!
## Claim theorems
-/

/-- C1 counterexample: a completed session over the five mock questions
with exactly 4 of 5 correct answers, scored by the page, is rendered as
passed, while the spec's rule `percentage >= test.passing_score` says
failed for a stored test whose passing score is 90.  The rendered
outcome therefore does not use the threshold supplied by the test. -/
theorem C1_counterexample :
    (runSession mockTest (handleTestSelect "1") [1, 2, 0, 2, 0]).testCompleted = true
    ∧ (computeResult testRecord90.questions
        (runSession mockTest (handleTestSelect "1") [1, 2, 0, 2, 0]).answers).passed = true
    ∧ specPassedRule testRecord90
        (computeResult testRecord90.questions
          (runSession mockTest (handleTestSelect "1") [1, 2, 0, 2, 0]).answers).score
        = false := by
  refine ⟨rfl, ?_, ?_⟩
  · have hs : calculateScore testRecord90.questions
        (runSession mockTest (handleTestSelect "1") [1, 2, 0, 2, 0]).answers = 4 := rfl
    have hl : testRecord90.questions.length = 5 := rfl
    simp only [computeResult, hs, hl]
    norm_num
  · have hs : (computeResult testRecord90.questions
        (runSession mockTest (handleTestSelect "1") [1, 2, 0, 2, 0]).answers).score = 4 := rfl
    rw [hs]
    have hl : testRecord90.questions.length = 5 := rfl
    have hp : testRecord90.passing_score = 90 := rfl
    simp only [specPassedRule, hl, hp]
    norm_num

/-- C1 (amended): the rendered pass/fail outcome equals
`percentage >= 70` with the threshold 70 hard-coded in the page (line
222); ties still favor the user, and a 5-question session with exactly
4 of 5 correct is rendered as passed — but the test's own
`passing_score` is never consulted, so the claimed equality with
`percentage >= test.passing_score` holds only when that stored score is
70. -/
theorem C1_amended_fixed_threshold :
    (∀ (qs : List Question) (answers : List (Option Nat)),
        (computeResult qs answers).passed
          = decide ((70 : ℚ) ≤ (computeResult qs answers).percentage))
    ∧ (computeResult mockTest.questions
        (runSession mockTest (handleTestSelect "1") [1, 2, 0, 2, 0]).answers).passed
        = true := by
  refine ⟨passed_eq_percentage_threshold, ?_⟩
  have hs : calculateScore mockTest.questions
      (runSession mockTest (handleTestSelect "1") [1, 2, 0, 2, 0]).answers = 4 := rfl
  have hl : mockTest.questions.length = 5 := rfl
  simp only [computeResult, hs, hl]
  norm_num

/-- C2 counterexample: after exactly 5 valid submissions over the
5-question mock test the session is completed, but the current question
index is 4, not 5 — the final submission sets the completion flag
without advancing the index (lines 101-106). -/
theorem C2_counterexample :
    (runSession mockTest (handleTestSelect "1") [1, 2, 0, 2, 1]).testCompleted = true
    ∧ (runSession mockTest (handleTestSelect "1") [1, 2, 0, 2, 1]).currentQuestion = 4
    ∧ (runSession mockTest (handleTestSelect "1") [1, 2, 0, 2, 1]).currentQuestion
        ≠ mockTest.questions.length := by
  exact ⟨rfl, rfl, by decide⟩

/-- C2 (amended): for every test with N questions (N >= 1), after
exactly N submissions starting from a fresh session, the completion
flag is true and the current question index equals N - 1 (the index of
the last question), not N. -/
theorem C2_amended_completion (test : Test) (tid : String) (opts : List Nat)
    (h1 : 1 ≤ test.questions.length) (h2 : opts.length = test.questions.length) :
    (runSession test (startSession test tid) opts).testCompleted = true
    ∧ (runSession test (startSession test tid) opts).currentQuestion
        = test.questions.length - 1 :=
  (run_fresh test tid opts h1 (le_of_eq h2)).2.2 h2

theorem C2_amended_completion_witness :
    1 ≤ mockTest.questions.length
    ∧ ([1, 2, 0, 2, 1] : List Nat).length = mockTest.questions.length
    ∧ ((runSession mockTest (startSession mockTest "1") [1, 2, 0, 2, 1]).testCompleted = true
        ∧ (runSession mockTest (startSession mockTest "1") [1, 2, 0, 2, 1]).currentQuestion
            = mockTest.questions.length - 1) :=
  ⟨by decide, by decide,
    C2_amended_completion mockTest "1" [1, 2, 0, 2, 1] (by decide) (by decide)⟩

/-- C3 counterexample: the first mock question has 4 options, so the
option index 10 is out of range; submitting it from a fresh session is
not rejected: no error is raised (the handlers are total), the answer
10 is recorded into slot 0, and the current question index advances
from 0 to 1, contradicting the claim that the session is left unchanged
under an `InvalidAnswerError`. -/
theorem C3_counterexample :
    (mockTest.questions[0]?).map (fun q => q.options.length) = some 4
    ∧ (handleTestSelect "1").currentQuestion = 0
    ∧ (handleTestSelect "1").answers = [none, none, none, none, none]
    ∧ (submitAnswer mockTest (handleTestSelect "1") 10).currentQuestion = 1
    ∧ (submitAnswer mockTest (handleTestSelect "1") 10).answers
        = [some 10, none, none, none, none] := by
  exact ⟨rfl, rfl, by decide, by decide, by decide⟩

/-- C3 (amended): the engine performs no range validation at all: an
option index outside `[0, len(options))` of the current question is
accepted like any other, recorded into the current slot, and the
session advances (or completes on the last question); since the
question's correct option is a valid index, the out-of-range answer can
never be scored as correct. -/
theorem C3_amended_no_validation (test : Test) (s : SessionState) (opt : Nat) (q : Question)
    (hq : test.questions[s.currentQuestion]? = some q)
    (hwf : q.correctOption < q.options.length)
    (hout : q.options.length ≤ opt) :
    (submitAnswer test s opt).answers = s.answers.set s.currentQuestion (some opt)
    ∧ opt ≠ q.correctOption
    ∧ ((submitAnswer test s opt).currentQuestion = s.currentQuestion + 1
        ∨ (submitAnswer test s opt).testCompleted = true) := by
  obtain ⟨stid, scq, sans, ssel, scomp⟩ := s
  by_cases h : scq < test.questions.length - 1
  · rw [submitAnswer_advance test stid scq sans ssel scomp opt h]
    exact ⟨rfl, by omega, Or.inl rfl⟩
  · rw [submitAnswer_finish test stid scq sans ssel scomp opt h]
    exact ⟨rfl, by omega, Or.inr rfl⟩

theorem C3_amended_no_validation_witness :
    mockTest.questions[(handleTestSelect "1").currentQuestion]?
        = some (mockTest.questions.getD 0 ⟨"", "", [], 0⟩)
    ∧ (mockTest.questions.getD 0 ⟨"", "", [], 0⟩).correctOption
        < (mockTest.questions.getD 0 ⟨"", "", [], 0⟩).options.length
    ∧ (mockTest.questions.getD 0 ⟨"", "", [], 0⟩).options.length ≤ 10
    ∧ ((submitAnswer mockTest (handleTestSelect "1") 10).answers
          = (handleTestSelect "1").answers.set (handleTestSelect "1").currentQuestion (some 10)
        ∧ 10 ≠ (mockTest.questions.getD 0 ⟨"", "", [], 0⟩).correctOption
        ∧ ((submitAnswer mockTest (handleTestSelect "1") 10).currentQuestion
              = (handleTestSelect "1").currentQuestion + 1
            ∨ (submitAnswer mockTest (handleTestSelect "1") 10).testCompleted = true)) :=
  ⟨rfl, by decide, by decide,
    C3_amended_no_validation mockTest (handleTestSelect "1") 10
      (mockTest.questions.getD 0 ⟨"", "", [], 0⟩) rfl (by decide) (by decide)⟩

/-- C4: for every completed session reached by submitting one answer
per question from a fresh start, the rendered result's score equals the
count of recorded answers whose selected option equals the paired
question's correct option, its max score equals the test's question
count, and its percentage equals `100 * score / max_score`. -/
theorem C4_result_spec (test : Test) (tid : String) (opts : List Nat)
    (h1 : 1 ≤ test.questions.length) (h2 : opts.length = test.questions.length) :
    (runSession test (startSession test tid) opts).testCompleted = true
    ∧ (computeResult test.questions
          (runSession test (startSession test tid) opts).answers).score
        = countCorrectAnswers test.questions
            (runSession test (startSession test tid) opts).answers
    ∧ (computeResult test.questions
          (runSession test (startSession test tid) opts).answers).maxScore
        = test.questions.length
    ∧ (computeResult test.questions
          (runSession test (startSession test tid) opts).answers).percentage
        = 100 * ((computeResult test.questions
              (runSession test (startSession test tid) opts).answers).score : ℚ)
            / ((computeResult test.questions
              (runSession test (startSession test tid) opts).answers).maxScore : ℚ) := by
  refine ⟨((run_fresh test tid opts h1 (le_of_eq h2)).2.2 h2).1,
    calculateScore_eq_count _ _, rfl, ?_⟩
  simp only [computeResult]
  rw [mul_div_assoc]

theorem C4_result_spec_witness :
    1 ≤ mockTest.questions.length
    ∧ ([1, 2, 0, 2, 0] : List Nat).length = mockTest.questions.length
    ∧ ((runSession mockTest (startSession mockTest "1") [1, 2, 0, 2, 0]).testCompleted = true
        ∧ (computeResult mockTest.questions
              (runSession mockTest (startSession mockTest "1") [1, 2, 0, 2, 0]).answers).score
            = countCorrectAnswers mockTest.questions
                (runSession mockTest (startSession mockTest "1") [1, 2, 0, 2, 0]).answers
        ∧ (computeResult mockTest.questions
              (runSession mockTest (startSession mockTest "1") [1, 2, 0, 2, 0]).answers).maxScore
            = mockTest.questions.length
        ∧ (computeResult mockTest.questions
              (runSession mockTest (startSession mockTest "1") [1, 2, 0, 2, 0]).answers).percentage
            = 100 * ((computeResult mockTest.questions
                  (runSession mockTest
                    (startSession mockTest "1") [1, 2, 0, 2, 0]).answers).score : ℚ)
                / ((computeResult mockTest.questions
                  (runSession mockTest
                    (startSession mockTest "1") [1, 2, 0, 2, 0]).answers).maxScore : ℚ))
    ∧ computeResult mockTest.questions
        (runSession mockTest (startSession mockTest "1") [1, 2, 0, 2, 0]).answers
        = ⟨4, 5, 80, true⟩ :=
  ⟨by decide, by decide,
    C4_result_spec mockTest "1" [1, 2, 0, 2, 0] (by decide) (by decide),
    by
      have hs : calculateScore mockTest.questions
          (runSession mockTest (startSession mockTest "1") [1, 2, 0, 2, 0]).answers = 4 := rfl
      have hl : mockTest.questions.length = 5 := rfl
      simp only [computeResult, hs, hl, TestResult.mk.injEq, decide_eq_true_eq]
      norm_num⟩

/-- C5 counterexample: after the final submission of a full run over
the 5-question mock test, 5 answers are recorded but the current
question index is 4, so the claimed equality fails after that
successful `submit_answer`. -/
theorem C5_counterexample :
    recordedAnswerCount (runSession mockTest (handleTestSelect "1") [1, 2, 0, 2, 1]).answers = 5
    ∧ (runSession mockTest (handleTestSelect "1") [1, 2, 0, 2, 1]).currentQuestion = 4
    ∧ recordedAnswerCount (runSession mockTest (handleTestSelect "1") [1, 2, 0, 2, 1]).answers
        ≠ (runSession mockTest (handleTestSelect "1") [1, 2, 0, 2, 1]).currentQuestion := by
  exact ⟨by decide, rfl, by decide⟩

/-- C5 (amended): the number of recorded answers equals the current
question index immediately after session creation and after every
successful submission that leaves the session in progress; after the
submission that completes the session, the recorded count equals the
index plus one (the index stays at the last question). -/
theorem C5_amended_invariant (test : Test) (tid : String) (opts : List Nat)
    (h1 : 1 ≤ test.questions.length) (h2 : opts.length ≤ test.questions.length) :
    recordedAnswerCount (startSession test tid).answers
        = (startSession test tid).currentQuestion
    ∧ ((runSession test (startSession test tid) opts).testCompleted = false →
        recordedAnswerCount (runSession test (startSession test tid) opts).answers
          = (runSession test (startSession test tid) opts).currentQuestion)
    ∧ ((runSession test (startSession test tid) opts).testCompleted = true →
        recordedAnswerCount (runSession test (startSession test tid) opts).answers
          = (runSession test (startSession test tid) opts).currentQuestion + 1) := by
  have key := run_fresh test tid opts h1 h2
  have hcount : recordedAnswerCount (runSession test (startSession test tid) opts).answers
      = opts.length := by
    rw [key.1]
    exact recordedAnswerCount_filled opts _
  refine ⟨?_, ?_, ?_⟩
  · show recordedAnswerCount (List.replicate test.questions.length none) = 0
    have h0 := recordedAnswerCount_filled [] test.questions.length
    simpa using h0
  · intro hnc
    rcases lt_or_eq_of_le h2 with hlt | heq
    · rw [hcount, (key.2.1 hlt).2]
    · exfalso
      rw [(key.2.2 heq).1] at hnc
      simp at hnc
  · intro hcp
    rcases lt_or_eq_of_le h2 with hlt | heq
    · exfalso
      rw [(key.2.1 hlt).1] at hcp
      simp at hcp
    · rw [hcount, (key.2.2 heq).2]
      omega

theorem C5_amended_invariant_witness :
    1 ≤ mockTest.questions.length
    ∧ ([1, 2] : List Nat).length ≤ mockTest.questions.length
    ∧ (recordedAnswerCount (startSession mockTest "1").answers
          = (startSession mockTest "1").currentQuestion
        ∧ ((runSession mockTest (startSession mockTest "1") [1, 2]).testCompleted = false →
            recordedAnswerCount (runSession mockTest (startSession mockTest "1") [1, 2]).answers
              = (runSession mockTest (startSession mockTest "1") [1, 2]).currentQuestion)
        ∧ ((runSession mockTest (startSession mockTest "1") [1, 2]).testCompleted = true →
            recordedAnswerCount (runSession mockTest (startSession mockTest "1") [1, 2]).answers
              = (runSession mockTest (startSession mockTest "1") [1, 2]).currentQuestion + 1)) :=
  ⟨by decide, by decide,
    C5_amended_invariant mockTest "1" [1, 2] (by decide) (by decide)⟩

/-- C6 counterexample: a completed session answers all five mock
questions correctly (score 5); mutating the first question's correct
option in the Content Store afterwards and recomputing drops the score
to 4 — the recorded answers store only the selected indices and
correctness is re-derived from the question list at result time. -/
theorem C6_counterexample :
    (computeResult mockTest.questions
        (runSession mockTest (handleTestSelect "1") [1, 2, 0, 2, 1]).answers).score = 5
    ∧ (computeResult mutatedQuestions
        (runSession mockTest (handleTestSelect "1") [1, 2, 0, 2, 1]).answers).score = 4
    ∧ (computeResult mockTest.questions
          (runSession mockTest (handleTestSelect "1") [1, 2, 0, 2, 1]).answers).score
        ≠ (computeResult mutatedQuestions
          (runSession mockTest (handleTestSelect "1") [1, 2, 0, 2, 1]).answers).score := by
  exact ⟨by decide, by decide, by decide⟩

/-- C6 (amended): no correctness bit is stored with an answer; the
result is recomputed from the question list as it stands at scoring
time, so the score is a function of the correct-option sequence present
then — unchanged exactly under mutations that preserve every correct
option, and in general changed when a correct option changes. -/
theorem C6_amended_recomputed (qs qs2 : List Question) (answers : List (Option Nat))
    (h : qs.map Question.correctOption = qs2.map Question.correctOption) :
    (computeResult qs answers).score = (computeResult qs2 answers).score := by
  show calculateScore qs answers = calculateScore qs2 answers
  exact scoreAux_congr answers qs qs2 h 0 0

theorem C6_amended_recomputed_witness :
    mockTest.questions.map Question.correctOption
        = textMutatedQuestions.map Question.correctOption
    ∧ (computeResult mockTest.questions
          (runSession mockTest (handleTestSelect "1") [1, 2, 0, 2, 1]).answers).score
        = (computeResult textMutatedQuestions
          (runSession mockTest (handleTestSelect "1") [1, 2, 0, 2, 1]).answers).score :=
  ⟨by decide,
    C6_amended_recomputed mockTest.questions textMutatedQuestions
      (runSession mockTest (handleTestSelect "1") [1, 2, 0, 2, 1]).answers (by decide)⟩

/-- C7 counterexample: on a fresh (not completed) session the result
computation raises nothing and produces a full Result — score 0 of 5,
percentage 0, not passed — contradicting the claim that it fails with
`NotCompletedError` and produces no Result. -/
theorem C7_counterexample :
    (handleTestSelect "1").testCompleted = false
    ∧ computeResult mockTest.questions (handleTestSelect "1").answers = ⟨0, 5, 0, false⟩ := by
  refine ⟨rfl, ?_⟩
  have hs : calculateScore mockTest.questions (handleTestSelect "1").answers = 0 := rfl
  have hl : mockTest.questions.length = 5 := rfl
  simp only [computeResult, hs, hl, TestResult.mk.injEq, decide_eq_false_iff_not]
  norm_num

/-- C7 (amended): the result computation performs no completion check:
on any session, completed or not, it returns normally with the session
untouched, scoring the currently recorded answers (empty slots count as
incorrect) against all questions. -/
theorem C7_amended_no_check (qs : List Question) (s : SessionState)
    (_h : s.testCompleted = false) :
    computeResultOp qs s = (computeResult qs s.answers, s)
    ∧ (computeResult qs s.answers).score = countCorrectAnswers qs s.answers
    ∧ (computeResult qs s.answers).maxScore = qs.length :=
  ⟨rfl, calculateScore_eq_count qs s.answers, rfl⟩

theorem C7_amended_no_check_witness :
    (handleTestSelect "1").testCompleted = false
    ∧ (computeResultOp mockTest.questions (handleTestSelect "1")
          = (computeResult mockTest.questions (handleTestSelect "1").answers,
              handleTestSelect "1")
        ∧ (computeResult mockTest.questions (handleTestSelect "1").answers).score
            = countCorrectAnswers mockTest.questions (handleTestSelect "1").answers
        ∧ (computeResult mockTest.questions (handleTestSelect "1").answers).maxScore
            = mockTest.questions.length) :=
  ⟨rfl, C7_amended_no_check mockTest.questions (handleTestSelect "1") rfl⟩

/-- C8 counterexample: starting a test with zero questions raises
nothing and does create a session — a fresh in-progress session with an
empty answer array — contradicting the claim that start fails with
`EmptyTestError` and produces no Session. -/
theorem C8_counterexample :
    emptyTest.questions.length = 0
    ∧ startSession emptyTest "empty"
        = { selectedTest := some "empty", currentQuestion := 0, answers := []
          , selectedOption := none, testCompleted := false } :=
  ⟨rfl, rfl⟩

/-- C8 (amended): start performs no emptiness check and always creates
a fresh session; in the shipped page every start runs over the
hard-coded 5-question `mockTest`, so an empty test never actually
reaches the engine. -/
theorem C8_amended_no_check : ∀ (tid : String),
    (handleTestSelect tid).testCompleted = false
    ∧ (handleTestSelect tid).currentQuestion = 0
    ∧ recordedAnswerCount (handleTestSelect tid).answers = 0
    ∧ (handleTestSelect tid).answers.length = mockTest.questions.length
    ∧ mockTest.questions.length = 5 := by
  intro tid
  exact ⟨rfl, rfl, rfl, rfl, rfl⟩

/-- C9: the result computation is idempotent — it leaves the session
unchanged, and computing again on the returned session yields the same
Result. -/
theorem C9_idempotent (qs : List Question) (s : SessionState)
    (_h : s.testCompleted = true) :
    (computeResultOp qs (computeResultOp qs s).2).1 = (computeResultOp qs s).1
    ∧ (computeResultOp qs (computeResultOp qs s).2).2 = s
    ∧ (computeResultOp qs s).2 = s :=
  ⟨rfl, rfl, rfl⟩

theorem C9_idempotent_witness :
    (runSession mockTest (handleTestSelect "1") [1, 2, 0, 2, 1]).testCompleted = true
    ∧ ((computeResultOp mockTest.questions
          (computeResultOp mockTest.questions
            (runSession mockTest (handleTestSelect "1") [1, 2, 0, 2, 1])).2).1
        = (computeResultOp mockTest.questions
            (runSession mockTest (handleTestSelect "1") [1, 2, 0, 2, 1])).1
      ∧ (computeResultOp mockTest.questions
          (computeResultOp mockTest.questions
            (runSession mockTest (handleTestSelect "1") [1, 2, 0, 2, 1])).2).2
          = runSession mockTest (handleTestSelect "1") [1, 2, 0, 2, 1]
      ∧ (computeResultOp mockTest.questions
          (runSession mockTest (handleTestSelect "1") [1, 2, 0, 2, 1])).2
          = runSession mockTest (handleTestSelect "1") [1, 2, 0, 2, 1]) :=
  ⟨rfl, C9_idempotent mockTest.questions
    (runSession mockTest (handleTestSelect "1") [1, 2, 0, 2, 1]) rfl⟩

/-- C10: whichever test id is selected, the engine runs over the one
hard-coded 5-question `mockTest`: for any two ids and any submission
sequence the resulting sessions differ at most in the stored id, the
answer array always has `mockTest`'s question count, and the computed
result is identical. -/
theorem C10_mock_test_only (tid tid2 : String) (opts : List Nat) :
    runSession mockTest (handleTestSelect tid) opts
        = { runSession mockTest (handleTestSelect tid2) opts with selectedTest := some tid }
    ∧ (handleTestSelect tid).answers.length = mockTest.questions.length
    ∧ computeResult mockTest.questions
        (runSession mockTest (handleTestSelect tid) opts).answers
        = computeResult mockTest.questions
            (runSession mockTest (handleTestSelect tid2) opts).answers := by
  have h : handleTestSelect tid = { handleTestSelect tid2 with selectedTest := some tid } := rfl
  have key : runSession mockTest (handleTestSelect tid) opts
      = { runSession mockTest (handleTestSelect tid2) opts with selectedTest := some tid } := by
    rw [h, runSession_selectedTest]
  refine ⟨key, rfl, ?_⟩
  rw [key]
